import Mathlib

/-!
Verification of the `lpais` NMEA/AIS reassembly library (`lpais/ais.py`).

The development shallowly embeds the Python source: pure helpers become Lean
functions, the stateful `normalize` closure becomes a function threading the
`buffers` mapping explicitly, and Python exceptions that can escape a call are
made explicit in the result type (`PyExn`).  Error objects delivered to the
injected `handle_err` handler are collected in a list of `ErrCond` values.

The checksum codec (`isChecksumValid`, `checksumStr`) and the tagblock parser
(`parseTagBlock`) live in the external `libais` package, not in this
repository; they are modelled from the specification (see their doc comments).
-/

namespace Lpais

/-- Characters treated as whitespace by Python's `str.strip` / `int` / `float`. -/
def isPySpace (c : Char) : Bool :=
  c = ' ' || c = '\t' || c = '\n' || c = '\r' || c = '\x0b' || c = '\x0c'

/-- Strip leading and trailing Python whitespace from a character list. -/
def pyStripL (l : List Char) : List Char :=
  ((l.dropWhile isPySpace).reverse.dropWhile isPySpace).reverse

/-- Python `s.strip()`. -/
def pyStrip (s : String) : String :=
  String.mk (pyStripL s.toList)

/-- Python `s.split(sep)` for a one-character separator, on character lists.
Always returns a non-empty list; `"".split(sep) == [""]`. -/
def splitChar (sep : Char) : List Char → List (List Char)
  | [] => [[]]
  | c :: cs =>
    match splitChar sep cs with
    | [] => [[]]
    | h :: t => if c = sep then [] :: h :: t else (c :: h) :: t

/-- Python `s.split(sep)` for a one-character separator. -/
def pySplit (s : String) (sep : Char) : List String :=
  (splitChar sep s.toList).map String.mk

/-- Python slice `s[a:b]` (for `0 ≤ a ≤ b`). -/
def pySlice (s : String) (a b : Nat) : String :=
  String.mk ((s.toList.drop a).take (b - a))

/-- Python `l[i]` for a list of strings, defaulting to `""`; used only at
indices that the surrounding code has already bounds-checked. -/
def nth (l : List String) (i : Nat) : String := l.getD i ""

/-- Value of a non-empty list of decimal digits. -/
def digitsToNat (l : List Char) : Nat :=
  l.foldl (fun n c => 10 * n + (c.toNat - '0'.toNat)) 0

/-- Python `int(s)`: optional surrounding whitespace, optional sign, one or
more ASCII decimal digits; `none` models the `ValueError` raised otherwise.
(Underscore separators and non-ASCII digits are not modelled.) -/
def pyInt (s : String) : Option Int :=
  let l := pyStripL s.toList
  match l with
  | '+' :: r => if r ≠ [] ∧ r.all Char.isDigit then some (digitsToNat r) else none
  | '-' :: r => if r ≠ [] ∧ r.all Char.isDigit then some (-(digitsToNat r : Int)) else none
  | r => if r ≠ [] ∧ r.all Char.isDigit then some (digitsToNat r) else none

/-- Mantissa of a Python float literal: `digits`, `digits.digits?` or
`.digits`. -/
def parseMantissa (l : List Char) : Option ℚ :=
  let ip := l.takeWhile Char.isDigit
  let rest := l.dropWhile Char.isDigit
  match rest with
  | [] => if ip = [] then none else some (digitsToNat ip : ℚ)
  | '.' :: fp =>
    if fp.all Char.isDigit then
      if ip = [] ∧ fp = [] then none
      else some ((digitsToNat ip : ℚ) + (digitsToNat fp : ℚ) / ((10 : ℚ) ^ fp.length))
    else none
  | _ => none

/-- Split a character list at the first `e`/`E`, returning the part before and
(if found) the part after. -/
def splitAtExp : List Char → List Char × Option (List Char)
  | [] => ([], none)
  | c :: cs =>
    if c = 'e' ∨ c = 'E' then ([], some cs)
    else
      match splitAtExp cs with
      | (m, e) => (c :: m, e)

/-- Python `float(s)` restricted to finite decimal literals (optional
whitespace, sign, decimal mantissa, optional exponent); `none` models the
`ValueError` raised otherwise.  `inf`/`nan` and underscore separators are not
modelled; the timestamps this library compares are plain decimal numbers. -/
def pyFloat (s : String) : Option ℚ :=
  let l := pyStripL s.toList
  let sgnl : ℚ × List Char :=
    match l with
    | '+' :: r => (1, r)
    | '-' :: r => (-1, r)
    | r => (1, r)
  match splitAtExp sgnl.2 with
  | (m, none) => (parseMantissa m).map (sgnl.1 * ·)
  | (m, some ex) =>
    let esgn : Int × List Char :=
      match ex with
      | '+' :: r => (1, r)
      | '-' :: r => (-1, r)
      | r => (1, r)
    if esgn.2 ≠ [] ∧ esgn.2.all Char.isDigit then
      (parseMantissa m).map (fun q => sgnl.1 * q * (10 : ℚ) ^ (esgn.1 * (digitsToNat esgn.2 : Int)))
    else none

/-! ## Python dictionaries with string keys and string values

A Python `dict` is modelled as an association list with unique keys, in
insertion order.  `dictSet` is `d[k] = v`, `dictUpdate` is `d.update(e)`,
`dictGet?` is `d.get(k)`. -/

/-- Association-list model of a Python `dict` with string keys and values. -/
abbrev SDict := List (String × String)

/-- Python `d.get(k)`: the value at the first (unique) entry for `k`. -/
def dictGet? : SDict → String → Option String
  | [], _ => none
  | (k', v) :: d, k => if k' = k then some v else dictGet? d k

/-- Python `k in d`. -/
def dictHas : SDict → String → Bool
  | [], _ => false
  | (k', _) :: d, k => k' = k || dictHas d k

/-- Overwrite every entry for `k` in place (helper for `dictSet`). -/
def dictPut : SDict → String → String → SDict
  | [], _, _ => []
  | (k', v') :: d, k, v =>
    if k' = k then (k, v) :: dictPut d k v else (k', v') :: dictPut d k v

/-- Python `d[k] = v`: overwrite in place if the key exists, else append. -/
def dictSet (d : SDict) (k v : String) : SDict :=
  if dictHas d k then dictPut d k v else d ++ [(k, v)]

/-- Python `d.update(e)`: set every pair of `e` into `d`, in order. -/
def dictUpdate (d e : SDict) : SDict :=
  e.foldl (fun acc p => dictSet acc p.1 p.2) d

/-! ## Checksum codec (external `ais.stream.checksum`) -/

/-- Drop a leading `!` or `$` sentinel character. -/
def stripSentinel : List Char → List Char
  | '!' :: r => r
  | '$' :: r => r
  | r => r

/-- Modelled from the spec: the checksum codec lives in the external `libais`
package (`ais.stream.checksum`), not in this repository.  Per §4.1, the
checksum is "the running exclusive-or of every byte between the leading
sentinel character (after stripping ... the leading `!`/`$`) and the `*`
delimiter".  `xorBody` computes that value. -/
def xorBody (s : String) : Nat :=
  ((stripSentinel s.toList).takeWhile (fun c => ¬ c = '*')).foldl
    (fun a c => Nat.xor a c.toNat) 0

/-- Uppercase hexadecimal digit for `n < 16` (codepoint 48 is `0`, 65 is
`A`). -/
def hexDigit (n : Nat) : Char :=
  Char.ofNat (if n < 10 then n + 48 else n + 55)

/-- Modelled from the spec: `compute`/`checksumStr` of the external checksum
codec (§4.1): "returns the two-hex-digit uppercase checksum string (no `*`),
for body text with checksum sentinel removed". -/
def checksumStr (s : String) : String :=
  String.mk [hexDigit (xorBody s / 16), hexDigit (xorBody s % 16)]

/-- Value of a hexadecimal digit character, `none` for non-hex characters
(codepoint ranges 48-57 for `0`-`9`, 65-70 for `A`-`F`, 97-102 for
`a`-`f`). -/
def hexVal? (c : Char) : Option Nat :=
  let n := c.toNat
  if 48 ≤ n ∧ n ≤ 57 then some (n - 48)
  else if 65 ≤ n ∧ n ≤ 70 then some (n - 55)
  else if 97 ≤ n ∧ n ≤ 102 then some (n - 87)
  else none

/-- Modelled from the spec: `validate`/`isChecksumValid` of the external
checksum codec (§4.1): computes the XOR of the text before the `*` delimiter
and "compares the two-hex-digit result (case-insensitive) against the digits
following `*`.  Returns false on malformed trailer (missing `*` or non-hex
digits) rather than raising."  Text after the two checksum digits is ignored,
matching the observed acceptance of lines with trailing fields after the
checksum. -/
def isChecksumValid (s : String) : Bool :=
  match s.toList.dropWhile (fun c => ¬ c = '*') with
  | '*' :: c1 :: c2 :: _ =>
    match hexVal? c1, hexVal? c2 with
    | some h1, some h2 => 16 * h1 + h2 == xorBody s
    | _, _ => false
  | _ => false

/-! ## TagBlock parser (external `ais.stream.parseTagBlock`) -/

/-- Modelled from the spec: the tagblock parser lives in the external `libais`
package, not in this repository.  Per §4.2: "if the line begins with a
tagblock delimiter (`\`), extracts the comma-separated `key:value` pairs up to
the closing delimiter into a mapping with string keys/values ... and returns
the remainder of the line as the sentence to process further.  If no tagblock
prefix exists, returns an empty mapping and the original line unchanged."
Keys are taken literally; the tagblock's own trailing checksum is not
validated (§4.2: "does not validate or checksum the tagblock itself"). -/
def parseTagBlock (raw : String) : SDict × String :=
  match raw.toList with
  | '\\' :: rest =>
    let content := rest.takeWhile (fun c => ¬ c = '\\')
    let remainder :=
      match rest.dropWhile (fun c => ¬ c = '\\') with
      | _ :: r => String.mk r
      | [] => ""
    let pairs := (splitChar ',' content).foldl
      (fun d kv =>
        let k := kv.takeWhile (fun c => ¬ c = ':')
        let v := (kv.dropWhile (fun c => ¬ c = ':')).drop 1
        dictSet d (String.mk k) (String.mk v)) []
    (pairs, remainder)
  | _ => ([], raw)

/-! ## Data model of the reassembly engine (`ais.py`, `normalizer`) -/

/-- Configuration of `normalizer` (`ais.py` lines 244-252), with the source's
default values. -/
structure AisConfig where
  validate_checksum : Bool := true
  allow_unknown : Bool := false
  window : ℚ := 2
  ignore_tagblock_station : Bool := false
  treat_ab_equal : Bool := false
  pass_invalid_checksums : Bool := false
  allow_missing_timestamps : Bool := false

/-- Error objects delivered to the injected `handle_err` handler, one
constructor per exception class of `ais.py`, carrying the context fields the
claims refer to. -/
inductive ErrCond where
  | invalidChecksum (line : String)
  | invalidChecksumInConstructed (line : String)
  | noStationFound (line : String)
  | tooFewFields (line : String) (fields : Nat)
  | missingTimestamps (line : String)
  | differingTimestamps (line : String) (timestamp : String)
  | onlyMessageEnd (line : String)
  | decode (line : String) (errorType : String) (error : String)
deriving DecidableEq, Repr

/-- Python exceptions that can escape `normalize`/`decode` (they are raised by
builtins outside any `try` block in the source). -/
inductive PyExn where
  | KeyError
  | ValueError
  | IndexError
deriving DecidableEq, Repr

/-- `newPacket` dictionary (`ais.py` lines 339-344). -/
structure Packet where
  payload : String
  timestamp : String
  tagblock : SDict
  origline : String
deriving DecidableEq, Repr

/-- `bufferSlot` key (`ais.py` lines 331-337): `channel` is `none` when
`treat_ab_equal` elides the channel id from the key. -/
structure BufferSlot where
  tagblock_station : Option String
  station : Option String
  seqId : String
  channel : Option String
deriving DecidableEq, Repr

/-- The process-wide `buffers` dictionary, keyed by `BufferSlot`. -/
abbrev Buffers := List (BufferSlot × List Packet)

/-- `buffers.get(slot)`. -/
def slotGet? (b : Buffers) (s : BufferSlot) : Option (List Packet) :=
  (b.find? (fun p => p.1 == s)).map (·.2)

/-- `buffers[slot] = v`. -/
def slotSet (b : Buffers) (s : BufferSlot) (v : List Packet) : Buffers :=
  if b.any (fun p => p.1 == s) then
    b.map (fun p => if p.1 == s then (s, v) else p)
  else b ++ [(s, v)]

/-- `del buffers[slot]`. -/
def slotDel (b : Buffers) (s : BufferSlot) : Buffers :=
  b.filter (fun p => ¬ p.1 == s)

/-- `slot in buffers`. -/
def slotMem (b : Buffers) (s : BufferSlot) : Bool :=
  b.any (fun p => p.1 == s)

/-- Successful result of `normalize`: the `(tagblock, line, origline)` tuple
(`ais.py` lines 264-268). -/
structure NResult where
  tagblock : SDict
  line : String
  origline : String
deriving DecidableEq, Repr

/-- Outcome of one `normalize` call: a result (possibly `none`), or a Python
exception escaping the call. -/
inductive NormOut where
  | res (r : Option NResult)
  | exn (e : PyExn)
deriving DecidableEq, Repr

/-! ## Temporal consistency check (`ais.py` lines 363-388) -/

/-- One iteration of the sanity-check loop body for `part` (`ais.py` lines
366-382): try `float(part["timestamp"])` and `float(timestamp)`; on
`ValueError` fall back to the tagblock timestamps of both sides; if that also
fails (missing key or unparsable), yield the `0/0` sentinel when
`allow_missing_timestamps` is set, else `none` (the `MissingTimestampsError`
path). -/
def partTs (cfg : AisConfig) (tagblock : SDict) (timestamp : String)
    (part : Packet) : Option (ℚ × ℚ) :=
  match pyFloat part.timestamp, pyFloat timestamp with
  | some a, some b => some (a, b)
  | _, _ =>
    match (dictGet? part.tagblock "tagblock_timestamp").bind pyFloat,
          (dictGet? tagblock "tagblock_timestamp").bind pyFloat with
    | some a, some b => some (a, b)
    | _, _ => if cfg.allow_missing_timestamps then some (0, 0) else none

/-- Outcome of the sanity-check loop: `missing` and `differing` are the two
early-`return` error paths; `ok ts1` carries the value the Python variable
`ts1` holds after the loop (`none` when the loop never ran). -/
inductive SanityRes where
  | missing
  | differing
  | ok (ts1 : Option ℚ)
deriving DecidableEq, Repr

/-- The sanity-check loop (`ais.py` lines 364-388): for each part derive the
`(ts1, ts2)` pair, stop with `DifferingTimestamps` when they differ by more
than `window` in either direction, and remember the last `ts1`. -/
def sanityCheck (cfg : AisConfig) (tagblock : SDict) (timestamp : String) :
    Option ℚ → List Packet → SanityRes
  | acc, [] => .ok acc
  | _, p :: ps =>
    match partTs cfg tagblock timestamp p with
    | none => .missing
    | some (a, b) =>
      if a > b + cfg.window ∨ a < b - cfg.window then .differing
      else sanityCheck cfg tagblock timestamp (some a) ps


/-! ## Completion of a multi-fragment message (`ais.py` lines 363-421) -/

/-- Tagblock merge (`ais.py` lines 391-393): start from an empty dict and
`update` with each part's tagblock, iterating the parts in reverse arrival
order, so that the earliest part's value for a key is written last. -/
def mergeTagblocks (parts : List Packet) : SDict :=
  parts.reverse.foldl (fun acc p => dictUpdate acc p.tagblock) []

/-- The `checksumed_str` of the synthesis step (`ais.py` lines 397-404):
mirror field 0, force `"1,1"`, keep the sequence and channel fields,
substitute the concatenated payload, and keep field 6's text before `*`
followed by `*`. -/
def checksumedStr (fields : List String) (payload f6 : String) : String :=
  String.intercalate ","
    [nth fields 0, "1,1", nth fields 3, nth fields 4, payload,
     (pySplit f6 '*').headD "" ++ "*"]

/-- The `out_str` of the zero-timestamp branch (`ais.py` lines 406-410):
checksum appended, then the trailing fields `fields[7:-1]` (excluding the
final timestamp field) when there are any. -/
def outTrunc (fields : List String) (base : String) : String :=
  let o := base ++ checksumStr base
  if ((fields.drop 7).dropLast).length > 0 then
    o ++ "," ++ String.intercalate "," ((fields.drop 7).dropLast)
  else o

/-- The `out_str` of the nonzero-timestamp branch (`ais.py` lines 411-413):
checksum appended, then a comma and all trailing fields `fields[7:]`. -/
def outFull (fields : List String) (base : String) : String :=
  base ++ checksumStr base ++ "," ++ String.intercalate "," (fields.drop 7)

/-- The complete `out_str` as first constructed (`ais.py` lines 397-413),
before the final strip: the `checksumed_str` for the concatenated payload
with the checksum appended, followed by the trailing fields — all of
`fields[7:]` when the after-loop `ts1` is nonzero, only `fields[7:-1]`
(dropping the timestamp field) when `ts1 == 0`. -/
def constructedStr (fields : List String) (parts : List Packet) (f6 : String)
    (ts1 : Option ℚ) : String :=
  let base := checksumedStr fields (String.join (parts.map (·.payload))) f6
  if ts1 = some 0 then outTrunc fields base else outFull fields base

/-- Completion of a multi-fragment message once all parts are in hand
(`ais.py` lines 363-421): sanity-check the timestamps, concatenate the
payloads, merge the tagblocks, synthesize the one-liner, re-validate its
checksum, and return the `(tagblock, out_str, origstr)` tuple.  `fields[6]`
is accessed unguarded in the source, so a 6-field sentence raises
`IndexError` here (before any handler call of this phase). -/
def finishMessage (cfg : AisConfig) (line : String) (fields : List String)
    (tagblock : SDict) (timestamp : String) (parts : List Packet) :
    Except PyExn (List ErrCond × Option NResult) :=
  match sanityCheck cfg tagblock timestamp none parts with
  | .missing => .ok ([.missingTimestamps (pyStrip line)], none)
  | .differing => .ok ([.differingTimestamps (pyStrip line) timestamp], none)
  | .ok ts1 =>
    let merged := mergeTagblocks parts
    match fields.get? 6 with
    | none => .error .IndexError
    | some f6 =>
      let out0 := constructedStr fields parts f6 ts1
      let conds : List ErrCond :=
        if ¬ isChecksumValid out0 then [.invalidChecksumInConstructed (pyStrip line)] else []
      let out_str := pyStrip out0 ++ "\n"
      let origstr := String.join (parts.map (·.origline))
      .ok (conds, some ⟨merged, out_str, origstr⟩)

/-! ## The reassembly engine (`ais.py` lines 276-423)

`normalize` (`ais.py` lines 276-421) is translated as a chain of phase
functions mirroring the source's early-return structure; `csConds` carries
the `InvalidChecksumError` object already delivered to the handler (if any),
which every later return site keeps in front of its own conditions.  The
result triple is the new `buffers` state, the error objects delivered to
`handle_err` (in order), and either the optional result tuple or the Python
exception escaping the call.  The exception sites of the source are modelled
faithfully: `int(fields[1])`/`int(fields[2])` raise `ValueError` on
non-numeric text, `buffers[bufferSlot].append(...)` raises `KeyError` when
the slot has no buffer, and `fields[6]` raises `IndexError` when only six
fields are present (after the slot was already deleted). -/

/-- Buffer handling for a fragment of a multiline message (`ais.py` lines
346-421): fragment 1 overwrites any partial buffer; a middle fragment
appends to the existing buffer (`KeyError` when the slot has none); the
final fragment signals `OnlyMessageEnd` when the slot has no buffer, and
otherwise consumes the buffered parts plus this packet through
`finishMessage`, deleting the slot. -/
def normBuffer (cfg : AisConfig) (buffers : Buffers) (line : String)
    (fields : List String) (tagblock : SDict) (timestamp : String)
    (slot : BufferSlot) (pkt : Packet) (totNumSentences sentenceNum : Int)
    (csConds : List ErrCond) : Buffers × List ErrCond × NormOut :=
  if sentenceNum = 1 then
    (slotSet buffers slot [pkt], csConds, .res none)
  else if totNumSentences > sentenceNum then
    match slotGet? buffers slot with
    | none => (buffers, csConds, .exn .KeyError)
    | some ps => (slotSet buffers slot (ps ++ [pkt]), csConds, .res none)
  else if !slotMem buffers slot then
    (buffers, csConds ++ [.onlyMessageEnd line], .res none)
  else
    match finishMessage cfg line fields tagblock timestamp
        ((slotGet? buffers slot).getD [] ++ [pkt]) with
    | .ok (cs, r) => (slotDel buffers slot, csConds ++ cs, .res r)
    | .error e => (slotDel buffers slot, csConds, .exn e)

/-- Multiline-message handling (`ais.py` lines 309-348): extract payload,
timestamp and station, resolve the station identity, signal `NoStationFound`
when none is available, and build the `BufferSlot` and `Packet` for the
buffer phase. -/
def normMulti (cfg : AisConfig) (buffers : Buffers) (origline line : String)
    (fields : List String) (tagblock : SDict)
    (totNumSentences sentenceNum : Int) (csConds : List ErrCond) :
    Buffers × List ErrCond × NormOut :=
  let payload := nth fields 5
  let timestamp := pyStrip (fields.getLastD "")
  let station0 := (fields.drop 6).reverse.find?
    (fun fld => fld.length != 0 && (fld.toList.headD ' ' == 'r' || fld.toList.headD ' ' == 'b'))
  let tagblock_station :=
    if cfg.ignore_tagblock_station then none else dictGet? tagblock "tagblock_station"
  let station := if station0.isNone && cfg.allow_unknown then some "UNKNOWN" else station0
  if station.isNone && tagblock_station.isNone then
    (buffers, csConds ++ [.noStationFound (pyStrip line)], .res none)
  else
    normBuffer cfg buffers line fields tagblock timestamp
      ⟨tagblock_station, station, nth fields 3,
       if cfg.treat_ab_equal then none else some (nth fields 4)⟩
      ⟨payload, timestamp, tagblock, origline⟩ totNumSentences sentenceNum csConds

/-- Field splitting and fragment-count parsing (`ais.py` lines 294-311):
fewer than 6 fields signals `TooFewFields`; a fragment count of 1 returns
the sentence as-is; otherwise the fragment index is parsed and the sentence
treated as part of a multiline message.  `int(...)` on non-numeric text
raises `ValueError`. -/
def normParse (cfg : AisConfig) (buffers : Buffers) (origline line : String)
    (tagblock : SDict) (csConds : List ErrCond) :
    Buffers × List ErrCond × NormOut :=
  let fields := pySplit line ','
  if fields.length < 6 then
    (buffers, csConds ++ [.tooFewFields (pyStrip line) fields.length], .res none)
  else
    match pyInt (nth fields 1) with
    | none => (buffers, csConds, .exn .ValueError)
    | some totNumSentences =>
      if totNumSentences = 1 then
        (buffers, csConds, .res (some ⟨tagblock, line, origline⟩))
      else
        match pyInt (nth fields 2) with
        | none => (buffers, csConds, .exn .ValueError)
        | some sentenceNum =>
          normMulti cfg buffers origline line fields tagblock
            totNumSentences sentenceNum csConds

/-- The per-line `normalize` operation (`ais.py` lines 276-421), with the
closure state `buffers` threaded explicitly: parse the tagblock, normalize
line endings, pass short or non-VDM/VDO lines through unchanged, validate
the checksum (signalling `InvalidChecksum`, and stopping unless
`pass_invalid_checksums`), then process the fields. -/
def normalize (cfg : AisConfig) (buffers : Buffers) (origline : String) :
    Buffers × List ErrCond × NormOut :=
  let tb := parseTagBlock origline
  let tagblock := tb.1
  let line := pyStrip tb.2 ++ "\n"
  if line.length < 7 ∨ (pySlice line 3 6 ≠ "VDM" ∧ pySlice line 3 6 ≠ "VDO") then
    (buffers, [], .res (some ⟨tagblock, line, origline⟩))
  else
    let badCs := cfg.validate_checksum && !(isChecksumValid line)
    let csConds : List ErrCond := if badCs then [.invalidChecksum (pyStrip line)] else []
    if badCs && !cfg.pass_invalid_checksums then
      (buffers, csConds, .res none)
    else
      normParse cfg buffers origline line tagblock csConds

/-- The comma-separated fields `normalize` computes for an input line, as a
standalone definition (definitionally the `fields` local of `normalize`). -/
def normFields (origline : String) : List String :=
  pySplit (pyStrip (parseTagBlock origline).2 ++ "\n") ','

/-! ## Message decode adapter (`ais.py` lines 217-239) -/

/-- Failure of the external bit-level decoder: the exception's qualified type
name and message, as captured by the `except` clause (`ais.py` lines
231-234). -/
structure DErr where
  errorType : String
  error : String
deriving DecidableEq, Repr

/-- Outcome of one `decode` call. -/
inductive DecOut where
  | res (r : Option SDict)
  | exn (e : PyExn)
deriving DecidableEq, Repr

/-- The `decode` operation (`ais.py` lines 217-239).  `decode_ais` is the
external bit-level decoder (`ais.decode`), a black box that either returns a
field mapping or fails.  `body = "".join(line.split(",")[5])` is the 6th
comma field itself (joining the characters of a string with `""`
reconstructs it); `pad = int(line.split("*")[0][-1])` is the last character
before the first `*`.  Both extractions can raise (`IndexError`,
`ValueError`) outside the `try` block; the external decoder's failure is
caught, signalled as a `DecodeError` carrying the stripped provenance text
and the failure's type and message, and swallowed (`return` with no
value). -/
def decode (cfg : AisConfig) (keep_nmea : Bool)
    (decode_ais : String → Int → Except DErr SDict)
    (buffers : Buffers) (line : String) : Buffers × List ErrCond × DecOut :=
  match normalize cfg buffers line with
  | (b', conds, .exn e) => (b', conds, .exn e)
  | (b', conds, .res none) => (b', conds, .res none)
  | (b', conds, .res (some r)) =>
    match (pySplit r.line ',').get? 5 with
    | none => (b', conds, .exn .IndexError)
    | some body =>
      match ((splitChar '*' r.line.toList).headD []).getLast? with
      | none => (b', conds, .exn .IndexError)
      | some c =>
        match pyInt (String.mk [c]) with
        | none => (b', conds, .exn .ValueError)
        | some pad =>
          match decode_ais body pad with
          | .error err =>
            (b', conds ++ [.decode (pyStrip r.origline) err.errorType err.error], .res none)
          | .ok res =>
            let res := dictUpdate res r.tagblock
            let res := if keep_nmea then dictSet res "nmea" r.origline else res
            (b', conds, .res (some res))


/-! ## Lemmas about the dictionary model -/

theorem dictGet?_isSome_iff (d : SDict) (k : String) :
    (dictGet? d k).isSome = true ↔ k ∈ d.map Prod.fst := by
  induction d with
  | nil => simp [dictGet?]
  | cons q t ih =>
    obtain ⟨k₁, v₁⟩ := q
    by_cases h : k₁ = k
    · subst h; simp [dictGet?]
    · simp [dictGet?, h, ih, Ne.symm h]

theorem dictHas_iff (d : SDict) (k : String) :
    dictHas d k = true ↔ k ∈ d.map Prod.fst := by
  induction d with
  | nil => simp [dictHas]
  | cons q t ih =>
    obtain ⟨k₁, v₁⟩ := q
    by_cases h : k₁ = k
    · subst h; simp [dictHas]
    · simp [dictHas, h, ih, Ne.symm h]

theorem dictGet?_dictPut_self (d : SDict) (k v : String) (h : k ∈ d.map Prod.fst) :
    dictGet? (dictPut d k v) k = some v := by
  induction d with
  | nil => simp at h
  | cons q t ih =>
    obtain ⟨k₁, v₁⟩ := q
    by_cases hq : k₁ = k
    · subst hq; simp [dictPut, dictGet?]
    · simp only [List.map_cons, List.mem_cons] at h
      rcases h with h | h
      · exact absurd h.symm hq
      · simp [dictPut, dictGet?, hq, ih h]

theorem dictGet?_dictPut_ne (d : SDict) (k' v k : String) (hk : k ≠ k') :
    dictGet? (dictPut d k' v) k = dictGet? d k := by
  induction d with
  | nil => rfl
  | cons q t ih =>
    obtain ⟨k₁, v₁⟩ := q
    by_cases hq : k₁ = k'
    · subst hq
      simp only [dictPut, if_pos rfl, dictGet?]
      rw [if_neg (fun h => hk h.symm), if_neg (fun h => hk h.symm)]
      exact ih
    · simp only [dictPut, if_neg hq, dictGet?]
      by_cases h1 : k₁ = k
      · rw [if_pos h1, if_pos h1]
      · rw [if_neg h1, if_neg h1]
        exact ih

theorem dictGet?_append (d e : SDict) (k : String) (h : k ∉ d.map Prod.fst) :
    dictGet? (d ++ e) k = dictGet? e k := by
  induction d with
  | nil => rfl
  | cons q t ih =>
    obtain ⟨k₁, v₁⟩ := q
    simp only [List.map_cons, List.mem_cons, not_or] at h
    rw [List.cons_append]
    show (if k₁ = k then some v₁ else dictGet? (t ++ e) k) = dictGet? e k
    rw [if_neg (fun he => h.1 he.symm)]
    exact ih h.2

theorem dictGet?_dictSet_self (d : SDict) (k v : String) :
    dictGet? (dictSet d k v) k = some v := by
  unfold dictSet
  by_cases h : dictHas d k = true
  · rw [if_pos h]
    exact dictGet?_dictPut_self d k v ((dictHas_iff d k).mp h)
  · rw [if_neg h]
    rw [dictGet?_append d _ k (fun hm => h ((dictHas_iff d k).mpr hm))]
    simp [dictGet?]

theorem dictGet?_append_single_ne (d : SDict) (k' v k : String) (hk : k ≠ k') :
    dictGet? (d ++ [(k', v)]) k = dictGet? d k := by
  induction d with
  | nil =>
    simp only [List.nil_append, dictGet?]
    rw [if_neg (fun h => hk h.symm)]
  | cons q t ih =>
    obtain ⟨k₁, v₁⟩ := q
    simp only [List.cons_append, dictGet?]
    by_cases h1 : k₁ = k
    · rw [if_pos h1, if_pos h1]
    · rw [if_neg h1, if_neg h1]
      exact ih

theorem dictGet?_dictSet_ne (d : SDict) (k' v k : String) (hk : k ≠ k') :
    dictGet? (dictSet d k' v) k = dictGet? d k := by
  unfold dictSet
  by_cases h : dictHas d k' = true
  · rw [if_pos h]
    exact dictGet?_dictPut_ne d k' v k hk
  · rw [if_neg h]
    exact dictGet?_append_single_ne d k' v k hk

theorem dictGet?_dictUpdate_not_mem (d e : SDict) (k : String)
    (h : k ∉ e.map Prod.fst) :
    dictGet? (dictUpdate d e) k = dictGet? d k := by
  induction e generalizing d with
  | nil => rfl
  | cons q t ih =>
    obtain ⟨k₁, v₁⟩ := q
    simp only [List.map_cons, List.mem_cons, not_or] at h
    show dictGet? (dictUpdate (dictSet d k₁ v₁) t) k = dictGet? d k
    rw [ih (dictSet d k₁ v₁) h.2]
    exact dictGet?_dictSet_ne d k₁ v₁ k h.1

theorem dictGet?_dictUpdate_mem (d e : SDict) (k : String)
    (hnd : (e.map Prod.fst).Nodup) (h : k ∈ e.map Prod.fst) :
    dictGet? (dictUpdate d e) k = dictGet? e k := by
  induction e generalizing d with
  | nil => simp at h
  | cons q t ih =>
    obtain ⟨k₁, v₁⟩ := q
    simp only [List.map_cons, List.nodup_cons] at hnd
    simp only [List.map_cons, List.mem_cons] at h
    show dictGet? (dictUpdate (dictSet d k₁ v₁) t) k
        = if k₁ = k then some v₁ else dictGet? t k
    rcases h with h | h
    · subst h
      rw [if_pos rfl]
      rw [dictGet?_dictUpdate_not_mem _ t k hnd.1]
      exact dictGet?_dictSet_self d k v₁
    · have hk : k ≠ k₁ := fun he => hnd.1 (he ▸ h)
      rw [if_neg (fun he => hk he.symm)]
      exact ih (dictSet d k₁ v₁) hnd.2 h

theorem mergeTagblocks_cons (p : Packet) (ps : List Packet) :
    mergeTagblocks (p :: ps) = dictUpdate (mergeTagblocks ps) p.tagblock := by
  simp [mergeTagblocks, List.reverse_cons, List.foldl_append]


/-! ## Claim C3: first-part-wins tagblock merge -/

/-- C3. In the multi-fragment tagblock merge (`ais.py` lines 390-393), for
every sequence of buffered parts and every key defined by at least one part
(in particular by two or more parts), the merged tagblock carries the value
from the earliest-arrived part that defines that key: the merge iterates the
parts in reverse arrival order and overwrites, so the first part's value is
written last.  Each part's tagblock is a Python dict, hence has unique
keys. -/
theorem C3_tagblock_merge_first_part_wins (parts : List Packet) (k : String)
    (hnd : ∀ p ∈ parts, (p.tagblock.map Prod.fst).Nodup) (p : Packet)
    (hp : parts.find? (fun q => (dictGet? q.tagblock k).isSome) = some p) :
    dictGet? (mergeTagblocks parts) k = dictGet? p.tagblock k := by
  induction parts with
  | nil => simp at hp
  | cons q ps ih =>
    rw [mergeTagblocks_cons]
    by_cases hq : (dictGet? q.tagblock k).isSome = true
    · rw [List.find?_cons_of_pos (p := fun q => (dictGet? q.tagblock k).isSome) ps hq] at hp
      injection hp with hp
      subst hp
      exact dictGet?_dictUpdate_mem _ _ k (hnd q (by simp))
        ((dictGet?_isSome_iff _ k).mp hq)
    · rw [List.find?_cons_of_neg (p := fun q => (dictGet? q.tagblock k).isSome) ps
        (by simpa using hq)] at hp
      rw [dictGet?_dictUpdate_not_mem _ _ k
        (fun hm => hq ((dictGet?_isSome_iff _ k).mpr hm))]
      exact ih (fun r hr => hnd r (by simp [hr])) hp

/-- Witness for C3 at a concrete input: two parts both defining key `"a"`;
the merged tagblock carries the first part's value `"1"`. -/
theorem C3_witness :
    dictGet? (mergeTagblocks
      [⟨"AAA", "1", [("a", "1"), ("b", "2")], "l1"⟩,
       ⟨"BBB", "2", [("a", "9"), ("c", "3")], "l2"⟩]) "a" = some "1" := by
  rw [C3_tagblock_merge_first_part_wins _ "a" (by decide)
    ⟨"AAA", "1", [("a", "1"), ("b", "2")], "l1"⟩ (by decide)]
  decide


/-! ## Claims C9 and C10: the decode adapter -/

/-- C9. For every line on which the reassembly engine produced a result but
the external bit-level decoder fails (`ais.py` lines 229-235), `decode`
signals a `Decode` condition carrying the (stripped) original provenance text
and the failure's type and message, and returns nothing: the failure is
swallowed at this boundary (the outcome is `res none`, not an escaping
exception). -/
theorem C9_decode_failure_swallowed (cfg : AisConfig) (keep_nmea : Bool)
    (decode_ais : String → Int → Except DErr SDict) (buffers : Buffers)
    (line : String) (b' : Buffers) (conds : List ErrCond) (r : NResult)
    (body : String) (c : Char) (pad : Int) (err : DErr)
    (h1 : normalize cfg buffers line = (b', conds, .res (some r)))
    (h2 : (pySplit r.line ',').get? 5 = some body)
    (h3 : ((splitChar '*' r.line.toList).headD []).getLast? = some c)
    (h4 : pyInt (String.mk [c]) = some pad)
    (h5 : decode_ais body pad = .error err) :
    decode cfg keep_nmea decode_ais buffers line
      = (b', conds ++ [.decode (pyStrip r.origline) err.errorType err.error], .res none) := by
  unfold decode
  rw [h1]
  simp only [h2, h3, h4, h5]

/-- Witness for C9 at a concrete input: a single-fragment sentence and an
external decoder that always fails; the `Decode` condition is delivered and
the call returns no record. -/
theorem C9_witness :
    decode { validate_checksum := false } false (fun _ _ => .error ⟨"AisErr", "boom"⟩)
      [] "!AIVDM,1,1,,A,AAA,0*00"
      = ([], [.decode "!AIVDM,1,1,,A,AAA,0*00" "AisErr" "boom"], .res none) :=
  C9_decode_failure_swallowed { validate_checksum := false } false
    (fun _ _ => .error ⟨"AisErr", "boom"⟩) [] "!AIVDM,1,1,,A,AAA,0*00"
    [] [] ⟨[], "!AIVDM,1,1,,A,AAA,0*00\n", "!AIVDM,1,1,,A,AAA,0*00"⟩
    "AAA" '0' 0 ⟨"AisErr", "boom"⟩ rfl rfl rfl rfl rfl

/-- C10. In the decode operation's successful path (`ais.py` lines 236-239),
the output record is `res.update(tagblock)`: the decoded AIS field mapping
updated with the merged tagblock mapping, so for every key present in both,
the tagblock's value overwrites the decoded field's value in the returned
record. -/
theorem C10_tagblock_precedence_on_collision (cfg : AisConfig)
    (decode_ais : String → Int → Except DErr SDict) (buffers : Buffers)
    (line : String) (b' : Buffers) (conds : List ErrCond) (r : NResult)
    (body : String) (c : Char) (pad : Int) (res : SDict)
    (h1 : normalize cfg buffers line = (b', conds, .res (some r)))
    (h2 : (pySplit r.line ',').get? 5 = some body)
    (h3 : ((splitChar '*' r.line.toList).headD []).getLast? = some c)
    (h4 : pyInt (String.mk [c]) = some pad)
    (h5 : decode_ais body pad = .ok res)
    (h6 : (r.tagblock.map Prod.fst).Nodup) :
    decode cfg false decode_ais buffers line
      = (b', conds, .res (some (dictUpdate res r.tagblock))) ∧
    ∀ k, k ∈ res.map Prod.fst → k ∈ r.tagblock.map Prod.fst →
      dictGet? (dictUpdate res r.tagblock) k = dictGet? r.tagblock k := by
  constructor
  · unfold decode
    rw [h1]
    simp only [h2, h3, h4, h5, Bool.false_eq_true, if_false]
  · intro k _ hk2
    exact dictGet?_dictUpdate_mem res r.tagblock k h6 hk2

/-- Witness for C10 at a concrete input: the decoded mapping and the tagblock
both define key `"k"`; the returned record carries the tagblock's value
`"v"`, not the decoder's `"x"`. -/
theorem C10_witness :
    decode { validate_checksum := false } false (fun _ _ => .ok [("k", "x"), ("m", "y")])
      [] "\\k:v\\!AIVDM,1,1,,A,AAA,0*00"
      = ([], [], .res (some (dictUpdate [("k", "x"), ("m", "y")] [("k", "v")]))) ∧
    ∀ k, k ∈ ([("k", "x"), ("m", "y")] : SDict).map Prod.fst →
      k ∈ ([("k", "v")] : SDict).map Prod.fst →
      dictGet? (dictUpdate [("k", "x"), ("m", "y")] [("k", "v")]) k
        = dictGet? [("k", "v")] k :=
  C10_tagblock_precedence_on_collision { validate_checksum := false }
    (fun _ _ => .ok [("k", "x"), ("m", "y")]) [] "\\k:v\\!AIVDM,1,1,,A,AAA,0*00"
    [] [] ⟨[("k", "v")], "!AIVDM,1,1,,A,AAA,0*00\n", "\\k:v\\!AIVDM,1,1,,A,AAA,0*00"⟩
    "AAA" '0' 0 [("k", "x"), ("m", "y")] rfl rfl rfl rfl rfl (by decide)


/-! ## Evaluation helpers

Concrete `pyFloat` values cannot be computed by `decide` (rational
arithmetic does not reduce in the kernel), so the instances the witnesses
need are provided as lemmas. -/

theorem pyFloat_eval_0 : pyFloat "0" = some 0 := by
  show some ((1 : ℚ) * ((0 : Nat) : ℚ)) = some 0
  norm_num

theorem pyFloat_eval_100 : pyFloat "100" = some 100 := by
  show some ((1 : ℚ) * ((100 : Nat) : ℚ)) = some 100
  norm_num

theorem pyFloat_eval_101 : pyFloat "101" = some 101 := by
  show some ((1 : ℚ) * ((101 : Nat) : ℚ)) = some 101
  norm_num

theorem pyFloat_eval_102 : pyFloat "102" = some 102 := by
  show some ((1 : ℚ) * ((102 : Nat) : ℚ)) = some 102
  norm_num

theorem pyFloat_eval_103 : pyFloat "103" = some 103 := by
  show some ((1 : ℚ) * ((103 : Nat) : ℚ)) = some 103
  norm_num

theorem partTs_numeric (cfg : AisConfig) (tb : SDict) (ts : String) (p : Packet)
    (a b : ℚ) (h1 : pyFloat p.timestamp = some a) (h2 : pyFloat ts = some b) :
    partTs cfg tb ts p = some (a, b) := by
  unfold partTs
  rw [h1, h2]

/-! ## Lemmas about the sanity-check loop -/

theorem sanityCheck_cons_pass (cfg : AisConfig) (tb : SDict) (ts : String)
    (acc : Option ℚ) (p : Packet) (ps : List Packet) (a b : ℚ)
    (hp : partTs cfg tb ts p = some (a, b))
    (hcond : ¬ (a > b + cfg.window ∨ a < b - cfg.window)) :
    sanityCheck cfg tb ts acc (p :: ps) = sanityCheck cfg tb ts (some a) ps := by
  rw [sanityCheck, hp]
  simp only [if_neg hcond]

theorem sanityCheck_cons_differing (cfg : AisConfig) (tb : SDict) (ts : String)
    (acc : Option ℚ) (p : Packet) (ps : List Packet) (a b : ℚ)
    (hp : partTs cfg tb ts p = some (a, b))
    (hcond : a > b + cfg.window ∨ a < b - cfg.window) :
    sanityCheck cfg tb ts acc (p :: ps) = .differing := by
  rw [sanityCheck, hp]
  simp only [if_pos hcond]

/-! ## Claim C4: timestamp window enforcement -/

/-- C4. The temporal consistency check (`ais.py` lines 363-388), on a
completed two-fragment message whose timestamps parse numerically to `a` and
`b`: when they differ by exactly the configured window the message is
accepted (a result is produced and no `DifferingTimestamps` condition is
signaled); when they differ by strictly more than the window in either
direction, `DifferingTimestamps` is the only signaled condition and no
result is produced (the buffer slot was already deleted by `normalize`
before this phase, so the whole message is discarded). -/
theorem C4_timestamp_window_boundary (cfg : AisConfig) (line : String)
    (fields : List String) (tagblock : SDict) (p1 pF : Packet) (a b : ℚ)
    (hw : 0 ≤ cfg.window) (hlen : 7 ≤ fields.length)
    (h1 : pyFloat p1.timestamp = some a) (h2 : pyFloat pF.timestamp = some b) :
    ((a - b = cfg.window ∨ b - a = cfg.window) →
      ∃ cs r, finishMessage cfg line fields tagblock pF.timestamp [p1, pF]
          = .ok (cs, some r) ∧ ∀ l t, ErrCond.differingTimestamps l t ∉ cs) ∧
    ((cfg.window < a - b ∨ cfg.window < b - a) →
      finishMessage cfg line fields tagblock pF.timestamp [p1, pF]
        = .ok ([.differingTimestamps (pyStrip line) pF.timestamp], none)) := by
  have hp1 : partTs cfg tagblock pF.timestamp p1 = some (a, b) := by
    unfold partTs
    rw [h1, h2]
  have hpF : partTs cfg tagblock pF.timestamp pF = some (b, b) := by
    unfold partTs
    rw [h2]
  constructor
  · intro hx
    have hcond1 : ¬ (a > b + cfg.window ∨ a < b - cfg.window) := by
      rcases hx with hx | hx <;> (push_neg; constructor <;> linarith)
    have hcondF : ¬ (b > b + cfg.window ∨ b < b - cfg.window) := by
      push_neg
      constructor <;> linarith
    have hsan : sanityCheck cfg tagblock pF.timestamp none [p1, pF] = .ok (some b) := by
      rw [sanityCheck_cons_pass cfg tagblock pF.timestamp none p1 [pF] a b hp1 hcond1,
          sanityCheck_cons_pass cfg tagblock pF.timestamp (some a) pF [] b b hpF hcondF,
          sanityCheck]
    obtain ⟨f6, hf6⟩ : ∃ x, fields.get? 6 = some x := by
      cases hf : fields.get? 6 with
      | none =>
        have := List.get?_eq_none.mp hf
        omega
      | some x => exact ⟨x, rfl⟩
    refine ⟨if ¬ isChecksumValid (constructedStr fields [p1, pF] f6 (some b)) then
        [.invalidChecksumInConstructed (pyStrip line)] else [],
      ⟨mergeTagblocks [p1, pF], pyStrip (constructedStr fields [p1, pF] f6 (some b)) ++ "\n",
        String.join ([p1, pF].map (·.origline))⟩, ?_, ?_⟩
    · unfold finishMessage
      rw [hsan]
      simp only [hf6]
    · intro l t
      split <;> simp
  · intro hx
    have hcond1 : a > b + cfg.window ∨ a < b - cfg.window := by
      rcases hx with hx | hx
      · left; linarith
      · right; linarith
    have hsan : sanityCheck cfg tagblock pF.timestamp none [p1, pF] = .differing :=
      sanityCheck_cons_differing cfg tagblock pF.timestamp none p1 [pF] a b hp1 hcond1
    unfold finishMessage
    rw [hsan]

/-- Witness for C4 at concrete inputs: fragment timestamps `100` and `102`
differ by exactly the default window `2` and the message is accepted with no
`DifferingTimestamps` condition; timestamps `100` and `103` differ by `3 > 2`
and the message is rejected with exactly that condition and no result. -/
theorem C4_witness :
    (∃ cs r, finishMessage {} "L"
        ["!AIVDM", "2", "2", "7", "A", "BBB", "2*53", "r42", "102\n"] [] "102"
        [⟨"AAA", "100", [], "l1"⟩, ⟨"BBB", "102", [], "l2"⟩] = .ok (cs, some r) ∧
      ∀ l t, ErrCond.differingTimestamps l t ∉ cs) ∧
    finishMessage {} "L"
        ["!AIVDM", "2", "2", "7", "A", "BBB", "2*43", "r42", "103\n"] [] "103"
        [⟨"AAA", "100", [], "l1"⟩, ⟨"BBB", "103", [], "l2"⟩]
      = .ok ([.differingTimestamps (pyStrip "L") "103"], none) := by
  constructor
  · exact (C4_timestamp_window_boundary {} "L"
      ["!AIVDM", "2", "2", "7", "A", "BBB", "2*53", "r42", "102\n"] []
      ⟨"AAA", "100", [], "l1"⟩ ⟨"BBB", "102", [], "l2"⟩ 100 102
      (by show (0 : ℚ) ≤ 2; norm_num) (by decide)
      pyFloat_eval_100 pyFloat_eval_102).1
      (by show (100 : ℚ) - 102 = 2 ∨ (102 : ℚ) - 100 = 2; norm_num)
  · exact (C4_timestamp_window_boundary {} "L"
      ["!AIVDM", "2", "2", "7", "A", "BBB", "2*43", "r42", "103\n"] []
      ⟨"AAA", "100", [], "l1"⟩ ⟨"BBB", "103", [], "l2"⟩ 100 103
      (by show (0 : ℚ) ≤ 2; norm_num) (by decide)
      pyFloat_eval_100 pyFloat_eval_103).2
      (by show (2 : ℚ) < 100 - 103 ∨ (2 : ℚ) < 103 - 100; norm_num)


/-! ## Claim C5: trailing fields and the zero-timestamp test -/

/-- Counterexample to C5.  The source decides between the two synthesis
branches with `if ts1 == 0` (`ais.py` line 406), not by whether the
zero-timestamp *sentinel* was produced.  Here `allow_missing_timestamps` is
`false` (the default), so the sentinel cannot be produced; both fragments
carry the legitimate timestamp `"0"`, which parses numerically
(`pyFloat "0" = some 0`, third conjunct), and the sanity check succeeds via
numeric parsing with `ts1 = 0` (fourth conjunct).  The claim then demands
that the synthesized sentence append all trailing fields of the final
fragment including its timestamp (`...*12,r42,0`), but the engine produces
`!AIVDM,1,1,5,A,AAABBB,2*12,r42` — the timestamp field is excluded (second
conjunct, versus the full-append string in the fifth conjunct). -/
theorem C5_counterexample :
    ({} : AisConfig).allow_missing_timestamps = false ∧
    normalize {}
        [(⟨none, some "r42", "5", some "A"⟩,
          [⟨"AAA", "0", [], "!AIVDM,2,1,5,A,AAA,0*51,r42,0"⟩])]
        "!AIVDM,2,2,5,A,BBB,2*53,r42,0"
      = ([], [], .res (some ⟨[], "!AIVDM,1,1,5,A,AAABBB,2*12,r42\n",
          "!AIVDM,2,1,5,A,AAA,0*51,r42,0!AIVDM,2,2,5,A,BBB,2*53,r42,0"⟩)) ∧
    pyFloat "0" = some 0 ∧
    sanityCheck {} [] "0" none
      [⟨"AAA", "0", [], "!AIVDM,2,1,5,A,AAA,0*51,r42,0"⟩,
       ⟨"BBB", "0", [], "!AIVDM,2,2,5,A,BBB,2*53,r42,0"⟩] = .ok (some 0) ∧
    pyStrip (outFull ["!AIVDM", "2", "2", "5", "A", "BBB", "2*53", "r42", "0\n"]
        "!AIVDM,1,1,5,A,AAABBB,2*") ++ "\n"
      = "!AIVDM,1,1,5,A,AAABBB,2*12,r42,0\n" := by
  have hsan : sanityCheck {} [] "0" none
      [⟨"AAA", "0", [], "!AIVDM,2,1,5,A,AAA,0*51,r42,0"⟩,
       ⟨"BBB", "0", [], "!AIVDM,2,2,5,A,BBB,2*53,r42,0"⟩] = .ok (some 0) := by
    rw [sanityCheck_cons_pass _ _ _ _ _ _ 0 0
        (partTs_numeric _ _ _ _ _ _ pyFloat_eval_0 pyFloat_eval_0)
        (by show ¬((0 : ℚ) > 0 + 2 ∨ (0 : ℚ) < 0 - 2); norm_num),
      sanityCheck_cons_pass _ _ _ _ _ _ 0 0
        (partTs_numeric _ _ _ _ _ _ pyFloat_eval_0 pyFloat_eval_0)
        (by show ¬((0 : ℚ) > 0 + 2 ∨ (0 : ℚ) < 0 - 2); norm_num)]
    rfl
  have hfin : finishMessage {} "!AIVDM,2,2,5,A,BBB,2*53,r42,0\n"
      ["!AIVDM", "2", "2", "5", "A", "BBB", "2*53", "r42", "0\n"] [] "0"
      [⟨"AAA", "0", [], "!AIVDM,2,1,5,A,AAA,0*51,r42,0"⟩,
       ⟨"BBB", "0", [], "!AIVDM,2,2,5,A,BBB,2*53,r42,0"⟩]
      = .ok ([], some ⟨[], "!AIVDM,1,1,5,A,AAABBB,2*12,r42\n",
          "!AIVDM,2,1,5,A,AAA,0*51,r42,0!AIVDM,2,2,5,A,BBB,2*53,r42,0"⟩) := by
    unfold finishMessage
    rw [hsan]
    rfl
  refine ⟨rfl, ?_, pyFloat_eval_0, hsan, by decide⟩
  have hred : normalize {}
      [(⟨none, some "r42", "5", some "A"⟩,
        [⟨"AAA", "0", [], "!AIVDM,2,1,5,A,AAA,0*51,r42,0"⟩])]
      "!AIVDM,2,2,5,A,BBB,2*53,r42,0"
      = (match finishMessage {} "!AIVDM,2,2,5,A,BBB,2*53,r42,0\n"
          ["!AIVDM", "2", "2", "5", "A", "BBB", "2*53", "r42", "0\n"] [] "0"
          [⟨"AAA", "0", [], "!AIVDM,2,1,5,A,AAA,0*51,r42,0"⟩,
           ⟨"BBB", "0", [], "!AIVDM,2,2,5,A,BBB,2*53,r42,0"⟩] with
        | .ok (cs, r) => ([], cs, NormOut.res r)
        | .error e => ([], [], NormOut.exn e)) := rfl
  rw [hred, hfin]

/-- C5 as amended.  After a successful sanity check, the synthesized sentence
appends all trailing fields of the final fragment including its timestamp
(`outFull`, i.e. `fields[7:]`) exactly when the after-loop `ts1` value is
nonzero; when `ts1 = 0` the timestamp field is excluded (`outTrunc`, i.e.
`fields[7:-1]`).  The test is on the numeric value `ts1` (`ais.py` line 406),
whether it arose from the `allow_missing_timestamps` sentinel or from a
fragment legitimately reporting timestamp `0`. -/
theorem C5_amended_trailing_fields_by_ts1 (cfg : AisConfig) (line : String)
    (fields : List String) (tagblock : SDict) (timestamp : String)
    (parts : List Packet) (ts1 : Option ℚ) (f6 : String)
    (hs : sanityCheck cfg tagblock timestamp none parts = .ok ts1)
    (h6 : fields.get? 6 = some f6) :
    ∃ cs, finishMessage cfg line fields tagblock timestamp parts
      = .ok (cs, some ⟨mergeTagblocks parts,
          pyStrip (if ts1 = some 0 then
              outTrunc fields (checksumedStr fields (String.join (parts.map (·.payload))) f6)
            else
              outFull fields (checksumedStr fields (String.join (parts.map (·.payload))) f6))
            ++ "\n",
          String.join (parts.map (·.origline))⟩) := by
  refine ⟨if ¬ isChecksumValid (constructedStr fields parts f6 ts1) then
      [.invalidChecksumInConstructed (pyStrip line)] else [], ?_⟩
  unfold finishMessage
  rw [hs]
  simp only [h6]
  rfl

/-- Witness for the amended C5 at the concrete inputs of the counterexample:
`ts1 = 0` obtained from the legitimate timestamp `"0"`, so the trailing
timestamp field is excluded from the synthesized sentence. -/
theorem C5_amended_witness :
    ∃ cs, finishMessage {} "!AIVDM,2,2,5,A,BBB,2*53,r42,0\n"
        ["!AIVDM", "2", "2", "5", "A", "BBB", "2*53", "r42", "0\n"] [] "0"
        [⟨"AAA", "0", [], "!AIVDM,2,1,5,A,AAA,0*51,r42,0"⟩,
         ⟨"BBB", "0", [], "!AIVDM,2,2,5,A,BBB,2*53,r42,0"⟩]
      = .ok (cs, some ⟨mergeTagblocks
            [⟨"AAA", "0", [], "!AIVDM,2,1,5,A,AAA,0*51,r42,0"⟩,
             ⟨"BBB", "0", [], "!AIVDM,2,2,5,A,BBB,2*53,r42,0"⟩],
          pyStrip (if (some (0 : ℚ)) = some 0 then
              outTrunc ["!AIVDM", "2", "2", "5", "A", "BBB", "2*53", "r42", "0\n"]
                (checksumedStr ["!AIVDM", "2", "2", "5", "A", "BBB", "2*53", "r42", "0\n"]
                  (String.join ([⟨"AAA", "0", [], "!AIVDM,2,1,5,A,AAA,0*51,r42,0"⟩,
                    (⟨"BBB", "0", [], "!AIVDM,2,2,5,A,BBB,2*53,r42,0"⟩ : Packet)].map (·.payload))) "2*53")
            else
              outFull ["!AIVDM", "2", "2", "5", "A", "BBB", "2*53", "r42", "0\n"]
                (checksumedStr ["!AIVDM", "2", "2", "5", "A", "BBB", "2*53", "r42", "0\n"]
                  (String.join ([⟨"AAA", "0", [], "!AIVDM,2,1,5,A,AAA,0*51,r42,0"⟩,
                    (⟨"BBB", "0", [], "!AIVDM,2,2,5,A,BBB,2*53,r42,0"⟩ : Packet)].map (·.payload))) "2*53"))
            ++ "\n",
          String.join ([⟨"AAA", "0", [], "!AIVDM,2,1,5,A,AAA,0*51,r42,0"⟩,
            (⟨"BBB", "0", [], "!AIVDM,2,2,5,A,BBB,2*53,r42,0"⟩ : Packet)].map (·.origline))⟩) := by
  apply C5_amended_trailing_fields_by_ts1 {} _ _ [] "0" _ (some 0) "2*53"
  · rw [sanityCheck_cons_pass _ _ _ _ _ _ 0 0
        (partTs_numeric _ _ _ _ _ _ pyFloat_eval_0 pyFloat_eval_0)
        (by show ¬((0 : ℚ) > 0 + 2 ∨ (0 : ℚ) < 0 - 2); norm_num),
      sanityCheck_cons_pass _ _ _ _ _ _ 0 0
        (partTs_numeric _ _ _ _ _ _ pyFloat_eval_0 pyFloat_eval_0)
        (by show ¬((0 : ℚ) > 0 + 2 ∨ (0 : ℚ) < 0 - 2); norm_num)]
    rfl
  · rfl

/-! ## Claim C6: InvalidChecksumInConstructed does not suppress the output -/

theorem finishMessage_invalidConstructed_mem (cfg : AisConfig) (line : String)
    (fields : List String) (tagblock : SDict) (timestamp : String)
    (parts : List Packet) (cs : List ErrCond) (r : Option NResult) (l : String)
    (h : finishMessage cfg line fields tagblock timestamp parts = .ok (cs, r))
    (hm : ErrCond.invalidChecksumInConstructed l ∈ cs) : ∃ x, r = some x := by
  unfold finishMessage at h
  split at h
  · rw [Except.ok.injEq, Prod.mk.injEq] at h
    obtain ⟨h1, h2⟩ := h
    subst h1
    simp at hm
  · rw [Except.ok.injEq, Prod.mk.injEq] at h
    obtain ⟨h1, h2⟩ := h
    subst h1
    simp at hm
  · split at h
    · exact absurd h (by simp)
    · rw [Except.ok.injEq, Prod.mk.injEq] at h
      obtain ⟨h1, h2⟩ := h
      exact ⟨_, h2.symm⟩

/-- In each phase below, an `invalidChecksumInConstructed` object among the
delivered conditions either was already in the inherited `csConds` or was
produced by `finishMessage`, in which case a result is returned. -/
theorem normBuffer_invalidConstructed (cfg : AisConfig) (buffers : Buffers)
    (line : String) (fields : List String) (tagblock : SDict)
    (timestamp : String) (slot : BufferSlot) (pkt : Packet)
    (totNumSentences sentenceNum : Int) (csConds : List ErrCond)
    (b : Buffers) (cs : List ErrCond) (out : NormOut) (l : String)
    (h : normBuffer cfg buffers line fields tagblock timestamp slot pkt
      totNumSentences sentenceNum csConds = (b, cs, out))
    (hm : ErrCond.invalidChecksumInConstructed l ∈ cs) :
    ErrCond.invalidChecksumInConstructed l ∈ csConds ∨ ∃ r, out = .res (some r) := by
  unfold normBuffer at h
  repeat' split at h
  all_goals
    (injection h with hb h
     injection h with hcs hout
     subst hcs
     subst hout)
  · exact .inl hm
  · exact .inl hm
  · exact .inl hm
  · rcases List.mem_append.mp hm with hm1 | hm1
    · exact .inl hm1
    · simp at hm1
  · rename_i heq
    rcases List.mem_append.mp hm with hm1 | hm1
    · exact .inl hm1
    · exact .inr ((finishMessage_invalidConstructed_mem _ _ _ _ _ _ _ _ _ heq hm1).imp
        (fun x hx => by rw [hx]))
  · exact .inl hm

theorem normMulti_invalidConstructed (cfg : AisConfig) (buffers : Buffers)
    (origline line : String) (fields : List String) (tagblock : SDict)
    (totNumSentences sentenceNum : Int) (csConds : List ErrCond)
    (b : Buffers) (cs : List ErrCond) (out : NormOut) (l : String)
    (h : normMulti cfg buffers origline line fields tagblock
      totNumSentences sentenceNum csConds = (b, cs, out))
    (hm : ErrCond.invalidChecksumInConstructed l ∈ cs) :
    ErrCond.invalidChecksumInConstructed l ∈ csConds ∨ ∃ r, out = .res (some r) := by
  unfold normMulti at h
  simp only [] at h
  repeat' split at h
  all_goals first
  | exact normBuffer_invalidConstructed _ _ _ _ _ _ _ _ _ _ _ _ _ _ _ h hm
  | (injection h with hb h
     injection h with hcs hout
     subst hcs
     rcases List.mem_append.mp hm with hm1 | hm1
     · exact .inl hm1
     · simp at hm1)

theorem normParse_invalidConstructed (cfg : AisConfig) (buffers : Buffers)
    (origline line : String) (tagblock : SDict) (csConds : List ErrCond)
    (b : Buffers) (cs : List ErrCond) (out : NormOut) (l : String)
    (h : normParse cfg buffers origline line tagblock csConds = (b, cs, out))
    (hm : ErrCond.invalidChecksumInConstructed l ∈ cs) :
    ErrCond.invalidChecksumInConstructed l ∈ csConds ∨ ∃ r, out = .res (some r) := by
  unfold normParse at h
  simp only [] at h
  repeat' split at h
  all_goals first
  | exact normMulti_invalidConstructed _ _ _ _ _ _ _ _ _ _ _ _ _ h hm
  | (injection h with hb h
     injection h with hcs hout
     subst hcs
     first
     | exact .inl hm
     | (rcases List.mem_append.mp hm with hm1 | hm1
        · exact .inl hm1
        · simp at hm1))

/-- C6. If the re-validation of the synthesized sentence's checksum fails,
the `InvalidChecksumInConstructed` condition is signaled to the handler but
the synthesized result is still returned to the caller (`ais.py` lines
415-421): whenever a `normalize` call delivers this condition, its outcome
is a `some` result — this condition does not suppress the output, unlike
every other condition of the engine. -/
theorem C6_constructed_checksum_nonsuppressing (cfg : AisConfig)
    (buffers : Buffers) (origline : String) (b : Buffers) (cs : List ErrCond)
    (out : NormOut) (l : String)
    (h : normalize cfg buffers origline = (b, cs, out))
    (hm : ErrCond.invalidChecksumInConstructed l ∈ cs) :
    ∃ r, out = .res (some r) := by
  unfold normalize at h
  simp only [] at h
  repeat' split at h
  all_goals try (injection h with hb h; injection h with hcs hout; subst hcs; simp at hm)
  all_goals
    rcases normParse_invalidConstructed _ _ _ _ _ _ _ _ _ _ h hm with hm1 | hr
  all_goals try simp at hm1
  all_goals exact hr

/-- Witness for C6 at a concrete input: a reassembled payload containing `*`
makes the synthesized one-liner's checksum re-validation fail;
`InvalidChecksumInConstructed` is delivered and the synthesized result is
still returned. -/
theorem C6_witness :
    normalize { validate_checksum := false }
        [(⟨none, some "r42", "9", some "A"⟩,
          [⟨"A*A", "100", [], "!AIVDM,2,1,9,A,A*A,0*00,r42,100"⟩])]
        "!AIVDM,2,2,9,A,B,0*00,r42,100"
      = ([], [.invalidChecksumInConstructed "!AIVDM,2,2,9,A,B,0*00,r42,100"],
          .res (some ⟨[], "!AIVDM,1,1,9,A,A*AB,0*42,r42,100\n",
            "!AIVDM,2,1,9,A,A*A,0*00,r42,100!AIVDM,2,2,9,A,B,0*00,r42,100"⟩)) ∧
    ∃ r, (NormOut.res (some ⟨[], "!AIVDM,1,1,9,A,A*AB,0*42,r42,100\n",
        "!AIVDM,2,1,9,A,A*A,0*00,r42,100!AIVDM,2,2,9,A,B,0*00,r42,100"⟩) : NormOut)
      = .res (some r) := by
  have hsan : sanityCheck { validate_checksum := false } [] "100" none
      [⟨"A*A", "100", [], "!AIVDM,2,1,9,A,A*A,0*00,r42,100"⟩,
       ⟨"B", "100", [], "!AIVDM,2,2,9,A,B,0*00,r42,100"⟩] = .ok (some 100) := by
    rw [sanityCheck_cons_pass _ _ _ _ _ _ 100 100
        (partTs_numeric _ _ _ _ _ _ pyFloat_eval_100 pyFloat_eval_100)
        (by show ¬((100 : ℚ) > 100 + 2 ∨ (100 : ℚ) < 100 - 2); norm_num),
      sanityCheck_cons_pass _ _ _ _ _ _ 100 100
        (partTs_numeric _ _ _ _ _ _ pyFloat_eval_100 pyFloat_eval_100)
        (by show ¬((100 : ℚ) > 100 + 2 ∨ (100 : ℚ) < 100 - 2); norm_num)]
    rfl
  have hfin : finishMessage { validate_checksum := false }
      "!AIVDM,2,2,9,A,B,0*00,r42,100\n"
      ["!AIVDM", "2", "2", "9", "A", "B", "0*00", "r42", "100\n"] [] "100"
      [⟨"A*A", "100", [], "!AIVDM,2,1,9,A,A*A,0*00,r42,100"⟩,
       ⟨"B", "100", [], "!AIVDM,2,2,9,A,B,0*00,r42,100"⟩]
      = .ok ([.invalidChecksumInConstructed "!AIVDM,2,2,9,A,B,0*00,r42,100"],
          some ⟨[], "!AIVDM,1,1,9,A,A*AB,0*42,r42,100\n",
            "!AIVDM,2,1,9,A,A*A,0*00,r42,100!AIVDM,2,2,9,A,B,0*00,r42,100"⟩) := by
    unfold finishMessage
    rw [hsan]
    rfl
  have hrun : normalize { validate_checksum := false }
      [(⟨none, some "r42", "9", some "A"⟩,
        [⟨"A*A", "100", [], "!AIVDM,2,1,9,A,A*A,0*00,r42,100"⟩])]
      "!AIVDM,2,2,9,A,B,0*00,r42,100"
      = ([], [.invalidChecksumInConstructed "!AIVDM,2,2,9,A,B,0*00,r42,100"],
          .res (some ⟨[], "!AIVDM,1,1,9,A,A*AB,0*42,r42,100\n",
            "!AIVDM,2,1,9,A,A*A,0*00,r42,100!AIVDM,2,2,9,A,B,0*00,r42,100"⟩)) := by
    have hred : normalize { validate_checksum := false }
        [(⟨none, some "r42", "9", some "A"⟩,
          [⟨"A*A", "100", [], "!AIVDM,2,1,9,A,A*A,0*00,r42,100"⟩])]
        "!AIVDM,2,2,9,A,B,0*00,r42,100"
        = (match finishMessage { validate_checksum := false }
            "!AIVDM,2,2,9,A,B,0*00,r42,100\n"
            ["!AIVDM", "2", "2", "9", "A", "B", "0*00", "r42", "100\n"] [] "100"
            [⟨"A*A", "100", [], "!AIVDM,2,1,9,A,A*A,0*00,r42,100"⟩,
             ⟨"B", "100", [], "!AIVDM,2,2,9,A,B,0*00,r42,100"⟩] with
          | .ok (cs, r) => ([], cs, NormOut.res r)
          | .error e => ([], [], NormOut.exn e)) := rfl
    rw [hred, hfin]
  exact ⟨hrun, C6_constructed_checksum_nonsuppressing _ _ _ _ _ _
    "!AIVDM,2,2,9,A,B,0*00,r42,100" hrun (by simp)⟩


/-! ## Claim C7: fragment-1 overwrite and idempotent restart -/

/-- C7.  A fragment with index 1 always overwrites any existing buffer at its
slot with a fresh one-element buffer and returns no result (`ais.py` lines
346-348; first conjunct, for arbitrary buffers state), so sending fragment-1
for a slot twice (never completing the first attempt) and then completing
the second message yields exactly one reassembled message and no error: the
concrete scenario (remaining conjuncts, default configuration) sends
fragment 1, the same fragment 1 again — leaving the buffers state unchanged
and producing no output and no condition — and then the final fragment,
which produces the single reassembled message and empties the slot. -/
theorem C7_fragment1_overwrite_scenario :
    (∀ (cfg : AisConfig) (buffers : Buffers) (line : String)
       (fields : List String) (tagblock : SDict) (timestamp : String)
       (slot : BufferSlot) (pkt : Packet) (tot : Int) (csConds : List ErrCond),
      normBuffer cfg buffers line fields tagblock timestamp slot pkt tot 1 csConds
        = (slotSet buffers slot [pkt], csConds, .res none)) ∧
    normalize {} [] "!AIVDM,2,1,7,A,AAA,0*53,r42,100"
      = ([(⟨none, some "r42", "7", some "A"⟩,
           [⟨"AAA", "100", [], "!AIVDM,2,1,7,A,AAA,0*53,r42,100"⟩])],
         [], .res none) ∧
    normalize {} [(⟨none, some "r42", "7", some "A"⟩,
        [⟨"AAA", "100", [], "!AIVDM,2,1,7,A,AAA,0*53,r42,100"⟩])]
      "!AIVDM,2,1,7,A,AAA,0*53,r42,100"
      = ([(⟨none, some "r42", "7", some "A"⟩,
           [⟨"AAA", "100", [], "!AIVDM,2,1,7,A,AAA,0*53,r42,100"⟩])],
         [], .res none) ∧
    normalize {} [(⟨none, some "r42", "7", some "A"⟩,
        [⟨"AAA", "100", [], "!AIVDM,2,1,7,A,AAA,0*53,r42,100"⟩])]
      "!AIVDM,2,2,7,A,BBB,2*51,r42,101"
      = ([], [], .res (some ⟨[], "!AIVDM,1,1,7,A,AAABBB,2*10,r42,101\n",
          "!AIVDM,2,1,7,A,AAA,0*53,r42,100!AIVDM,2,2,7,A,BBB,2*51,r42,101"⟩)) := by
  refine ⟨fun cfg buffers line fields tagblock timestamp slot pkt tot csConds => ?_,
    by decide, by decide, ?_⟩
  · unfold normBuffer
    rw [if_pos rfl]
  · have hsan : sanityCheck {} [] "101" none
        [⟨"AAA", "100", [], "!AIVDM,2,1,7,A,AAA,0*53,r42,100"⟩,
         ⟨"BBB", "101", [], "!AIVDM,2,2,7,A,BBB,2*51,r42,101"⟩] = .ok (some 101) := by
      rw [sanityCheck_cons_pass _ _ _ _ _ _ 100 101
          (partTs_numeric _ _ _ _ _ _ pyFloat_eval_100 pyFloat_eval_101)
          (by show ¬((100 : ℚ) > 101 + 2 ∨ (100 : ℚ) < 101 - 2); norm_num),
        sanityCheck_cons_pass _ _ _ _ _ _ 101 101
          (partTs_numeric _ _ _ _ _ _ pyFloat_eval_101 pyFloat_eval_101)
          (by show ¬((101 : ℚ) > 101 + 2 ∨ (101 : ℚ) < 101 - 2); norm_num)]
      rfl
    have hfin : finishMessage {} "!AIVDM,2,2,7,A,BBB,2*51,r42,101\n"
        ["!AIVDM", "2", "2", "7", "A", "BBB", "2*51", "r42", "101\n"] [] "101"
        [⟨"AAA", "100", [], "!AIVDM,2,1,7,A,AAA,0*53,r42,100"⟩,
         ⟨"BBB", "101", [], "!AIVDM,2,2,7,A,BBB,2*51,r42,101"⟩]
        = .ok ([], some ⟨[], "!AIVDM,1,1,7,A,AAABBB,2*10,r42,101\n",
            "!AIVDM,2,1,7,A,AAA,0*53,r42,100!AIVDM,2,2,7,A,BBB,2*51,r42,101"⟩) := by
      unfold finishMessage
      rw [hsan]
      rfl
    have hred : normalize {} [(⟨none, some "r42", "7", some "A"⟩,
          [⟨"AAA", "100", [], "!AIVDM,2,1,7,A,AAA,0*53,r42,100"⟩])]
        "!AIVDM,2,2,7,A,BBB,2*51,r42,101"
        = (match finishMessage {} "!AIVDM,2,2,7,A,BBB,2*51,r42,101\n"
            ["!AIVDM", "2", "2", "7", "A", "BBB", "2*51", "r42", "101\n"] [] "101"
            [⟨"AAA", "100", [], "!AIVDM,2,1,7,A,AAA,0*53,r42,100"⟩,
             ⟨"BBB", "101", [], "!AIVDM,2,2,7,A,BBB,2*51,r42,101"⟩] with
          | .ok (cs, r) => ([], cs, NormOut.res r)
          | .error e => ([], [], NormOut.exn e)) := rfl
    rw [hred, hfin]


/-! ## Claim C8: checksum round-trip -/

theorem stripSentinel_cons_ne (c : Char) (r : List Char)
    (h1 : ¬ c = '!') (h2 : ¬ c = '$') : stripSentinel (c :: r) = c :: r := by
  unfold stripSentinel
  split
  · rename_i heq
    injection heq with hc _
    exact absurd hc h1
  · rename_i heq
    injection heq with hc _
    exact absurd hc h2
  · rfl

theorem stripSentinel_append (c : Char) (t m : List Char) :
    stripSentinel ((c :: t) ++ m) = stripSentinel (c :: t) ++ m := by
  by_cases h1 : c = '!'
  · subst h1; rfl
  · by_cases h2 : c = '$'
    · subst h2; rfl
    · rw [List.cons_append, stripSentinel_cons_ne c (t ++ m) h1 h2,
        stripSentinel_cons_ne c t h1 h2, List.cons_append]

theorem stripSentinel_mem (l : List Char) (x : Char) (h : x ∈ stripSentinel l) :
    x ∈ l := by
  unfold stripSentinel at h
  split at h
  · exact List.mem_cons_of_mem _ h
  · exact List.mem_cons_of_mem _ h
  · exact h

theorem takeWhile_no_star (l : List Char) (h : '*' ∉ l) :
    l.takeWhile (fun c => ¬ c = '*') = l := by
  induction l with
  | nil => rfl
  | cons c t ih =>
    simp only [List.mem_cons, not_or] at h
    rw [List.takeWhile_cons, if_pos (by simpa using fun he => h.1 he.symm)]
    rw [ih h.2]

theorem takeWhile_append_star (l r : List Char) (h : '*' ∉ l) :
    (l ++ '*' :: r).takeWhile (fun c => ¬ c = '*') = l := by
  induction l with
  | nil => simp [List.takeWhile_cons]
  | cons c t ih =>
    simp only [List.mem_cons, not_or] at h
    rw [List.cons_append, List.takeWhile_cons,
      if_pos (by simpa using fun he => h.1 he.symm)]
    rw [ih h.2]

theorem dropWhile_append_star (l r : List Char) (h : '*' ∉ l) :
    (l ++ '*' :: r).dropWhile (fun c => ¬ c = '*') = '*' :: r := by
  induction l with
  | nil => simp [List.dropWhile_cons]
  | cons c t ih =>
    simp only [List.mem_cons, not_or] at h
    rw [List.cons_append, List.dropWhile_cons,
      if_pos (by simpa using fun he => h.1 he.symm)]
    exact ih h.2

theorem xorFoldl_lt (l : List Char) (h : ∀ c ∈ l, c.toNat < 128) :
    ∀ a, a < 128 → l.foldl (fun a c => Nat.xor a c.toNat) a < 128 := by
  induction l with
  | nil => exact fun a ha => ha
  | cons c t ih =>
    intro a ha
    rw [List.foldl_cons]
    refine ih (fun d hd => h d (List.mem_cons_of_mem _ hd)) _ ?_
    have h1 : a < 2 ^ 7 := ha
    have h2 : c.toNat < 2 ^ 7 := h c (List.mem_cons_self _ _)
    exact Nat.xor_lt_two_pow h1 h2

theorem hexVal?_hexDigit (k : Nat) (hk : k < 16) :
    hexVal? (hexDigit k) = some k := by
  interval_cases k <;> decide

theorem xorBody_lt (s : String) (h : ∀ c ∈ s.toList, c.toNat < 128) :
    xorBody s < 128 := by
  unfold xorBody
  refine xorFoldl_lt _ (fun c hc => ?_) 0 (by norm_num)
  exact h c (stripSentinel_mem _ _ ((List.takeWhile_sublist _).subset hc))

theorem xorBody_concat (body cs : String) (h : '*' ∉ body.toList) :
    xorBody (body ++ "*" ++ cs) = xorBody body := by
  have hdata : (body ++ "*" ++ cs).toList = body.toList ++ '*' :: cs.toList := by
    simp [String.toList, String.data_append]
  unfold xorBody
  rw [hdata]
  cases hb : body.toList with
  | nil =>
    rw [List.nil_append,
      stripSentinel_cons_ne '*' cs.toList (by decide) (by decide)]
    rw [List.takeWhile_cons, if_neg (by simp)]
    rfl
  | cons c t =>
    rw [hb] at h
    rw [show (c :: t) ++ '*' :: cs.toList = (c :: t) ++ '*' :: cs.toList from rfl,
      stripSentinel_append c t ('*' :: cs.toList)]
    have hns : '*' ∉ stripSentinel (c :: t) := fun hm => h (stripSentinel_mem _ _ hm)
    rw [takeWhile_append_star _ _ hns, takeWhile_no_star _ hns]

/-- C8.  Checksum round-trip for the modelled codec (§4.1, §8): for every
sentence body (checksum sentinel removed — no `*` — and ASCII, per the input
contract of §6), validating the sentence formed by appending `*` and the
computed two-hex-digit checksum succeeds:
`validate(body ++ "*" ++ compute(body))` holds.  This is what makes every
synthesized sentence of the reassembly engine checksum-valid. -/
theorem C8_checksum_roundtrip (body : String)
    (h1 : '*' ∉ body.toList) (h2 : ∀ c ∈ body.toList, c.toNat < 128) :
    isChecksumValid (body ++ "*" ++ checksumStr body) = true := by
  have hn : xorBody body < 128 := xorBody_lt body h2
  have hdata : (body ++ "*" ++ checksumStr body).toList
      = body.toList ++ '*' :: [hexDigit (xorBody body / 16), hexDigit (xorBody body % 16)] := by
    simp [String.toList, String.data_append, checksumStr]
  unfold isChecksumValid
  rw [hdata, dropWhile_append_star _ _ h1]
  simp only [hexVal?_hexDigit _ (show xorBody body / 16 < 16 by omega),
    hexVal?_hexDigit _ (show xorBody body % 16 < 16 by omega),
    xorBody_concat body (checksumStr body) h1]
  simp [Nat.div_add_mod]

/-- Witness for C8 at a concrete body. -/
theorem C8_witness :
    ¬ '*' ∈ "AIVDM,1,1,,A,AAA,0".toList ∧
    (∀ c ∈ "AIVDM,1,1,,A,AAA,0".toList, c.toNat < 128) ∧
    isChecksumValid ("AIVDM,1,1,,A,AAA,0" ++ "*" ++ checksumStr "AIVDM,1,1,,A,AAA,0") = true :=
  ⟨by decide, by decide,
    C8_checksum_roundtrip "AIVDM,1,1,,A,AAA,0" (by decide) (by decide)⟩


/-! ## Claims C1 and C2: escaping exceptions -/

theorem finishMessage_error (cfg : AisConfig) (line : String)
    (fields : List String) (tagblock : SDict) (timestamp : String)
    (parts : List Packet) (e : PyExn)
    (h : finishMessage cfg line fields tagblock timestamp parts = .error e) :
    e = .IndexError ∧ fields.get? 6 = none := by
  unfold finishMessage at h
  split at h
  · simp at h
  · simp at h
  · split at h
    · rename_i heq
      injection h with he
      exact ⟨he.symm, heq⟩
    · simp at h

theorem normBuffer_exn (cfg : AisConfig) (buffers : Buffers) (line : String)
    (fields : List String) (tagblock : SDict) (timestamp : String)
    (slot : BufferSlot) (pkt : Packet) (totNumSentences sentenceNum : Int)
    (csConds : List ErrCond) (b : Buffers) (cs : List ErrCond) (e : PyExn)
    (h : normBuffer cfg buffers line fields tagblock timestamp slot pkt
      totNumSentences sentenceNum csConds = (b, cs, .exn e)) :
    (e = .KeyError ∧ b = buffers ∧ slotGet? buffers slot = none)
      ∨ (e = .IndexError ∧ fields.length ≤ 6) := by
  unfold normBuffer at h
  repeat' split at h
  all_goals
    (injection h with hb h
     injection h with hcs hout)
  all_goals try simp at hout
  · exact .inl ⟨hout.symm, hb.symm, by assumption⟩
  · rename_i heq
    obtain ⟨hie, h6⟩ := finishMessage_error _ _ _ _ _ _ _ heq
    exact .inr ⟨hout ▸ hie, by have := List.get?_eq_none.mp h6; omega⟩

theorem normMulti_exn (cfg : AisConfig) (buffers : Buffers)
    (origline line : String) (fields : List String) (tagblock : SDict)
    (totNumSentences sentenceNum : Int) (csConds : List ErrCond)
    (b : Buffers) (cs : List ErrCond) (e : PyExn)
    (h : normMulti cfg buffers origline line fields tagblock
      totNumSentences sentenceNum csConds = (b, cs, .exn e)) :
    (e = .KeyError ∧ b = buffers) ∨ (e = .IndexError ∧ fields.length ≤ 6) := by
  unfold normMulti at h
  simp only [] at h
  repeat' split at h
  all_goals try
    (injection h with hb h
     injection h with hcs hout
     simp at hout)
  all_goals
    rcases normBuffer_exn _ _ _ _ _ _ _ _ _ _ _ _ _ _ h with ⟨he, hb, _⟩ | hr
  all_goals first
  | exact .inl ⟨he, hb⟩
  | exact .inr hr

theorem normParse_exn (cfg : AisConfig) (buffers : Buffers)
    (origline line : String) (tagblock : SDict) (csConds : List ErrCond)
    (b : Buffers) (cs : List ErrCond) (e : PyExn)
    (h : normParse cfg buffers origline line tagblock csConds = (b, cs, .exn e)) :
    (e = .ValueError ∧ b = buffers ∧
      (pyInt (nth (pySplit line ',') 1) = none ∨ pyInt (nth (pySplit line ',') 2) = none))
    ∨ (e = .KeyError ∧ b = buffers)
    ∨ (e = .IndexError ∧ (pySplit line ',').length = 6) := by
  unfold normParse at h
  simp only [] at h
  repeat' split at h
  all_goals try
    (injection h with hb h
     injection h with hcs hout
     try simp at hout)
  · exact .inl ⟨hout.symm, hb.symm, .inl (by assumption)⟩
  · exact .inl ⟨hout.symm, hb.symm, .inr (by assumption)⟩
  · have hg : ¬ (pySplit line ',').length < 6 := by assumption
    rcases normMulti_exn _ _ _ _ _ _ _ _ _ _ _ _ h with ⟨he, hb⟩ | ⟨he, hlen6⟩
    · exact .inr (.inl ⟨he, hb⟩)
    · exact .inr (.inr ⟨he, by omega⟩)

/-- Counterexample to C1.  The reassembly operation does not always complete
without raising: on a checksum-valid AIS sentence whose total-fragment-count
field is not numeric (`x`), `int(fields[1])` (`ais.py` line 301) raises a
`ValueError` that escapes `normalize` under the default configuration — it
is not delivered to the injected handler (no condition is signaled). -/
theorem C1_counterexample :
    normalize {} [] "!AIVDM,x,1,7,A,AAA,0*19,r42,100"
      = ([], [], .exn .ValueError) := by decide

/-- C1 as amended.  An exception escapes `normalize` only in three specific
situations, and otherwise every call completes, delivering conditions to the
handler only: a non-numeric fragment-count or fragment-index field raises
`ValueError` (with the buffers state unchanged); a middle fragment whose
slot has no buffer raises `KeyError` (buffers unchanged); and a final
fragment with exactly six fields raises `IndexError` from the synthesis
step.  In particular every signaled error condition itself leaves the
engine usable — only these three raw `int`/dict/list accesses escape. -/
theorem C1_amended_exception_escapes (cfg : AisConfig) (buffers : Buffers)
    (origline : String) (b : Buffers) (cs : List ErrCond) (e : PyExn)
    (h : normalize cfg buffers origline = (b, cs, .exn e)) :
    (e = .ValueError ∧ b = buffers ∧
      (pyInt (nth (normFields origline) 1) = none
        ∨ pyInt (nth (normFields origline) 2) = none))
    ∨ (e = .KeyError ∧ b = buffers)
    ∨ (e = .IndexError ∧ (normFields origline).length = 6) := by
  unfold normalize at h
  simp only [] at h
  repeat' split at h
  all_goals try
    (injection h with hb h
     injection h with hcs hout
     simp at hout)
  all_goals exact normParse_exn _ _ _ _ _ _ _ _ _ h

/-- Witness for the amended C1 at the counterexample input: the escape is a
`ValueError` with the buffers unchanged and a non-numeric fragment-count
field. -/
theorem C1_amended_witness :
    (PyExn.ValueError = .ValueError ∧ ([] : Buffers) = [] ∧
      (pyInt (nth (normFields "!AIVDM,x,1,7,A,AAA,0*19,r42,100") 1) = none
        ∨ pyInt (nth (normFields "!AIVDM,x,1,7,A,AAA,0*19,r42,100") 2) = none))
    ∨ (PyExn.ValueError = .KeyError ∧ ([] : Buffers) = [])
    ∨ (PyExn.ValueError = .IndexError ∧
        (normFields "!AIVDM,x,1,7,A,AAA,0*19,r42,100").length = 6) :=
  C1_amended_exception_escapes {} [] "!AIVDM,x,1,7,A,AAA,0*19,r42,100"
    [] [] .ValueError (by decide)

/-- Counterexample to C2.  A sentence with total-fragment-count 3 and
fragment-index 2 (strictly between 1 and the total), arriving when no buffer
exists for its slot, is not tolerated silently: `buffers[bufferSlot].append`
(`ais.py` line 351) raises a `KeyError` that escapes `normalize`; no
condition is signaled and no result is returned. -/
theorem C2_counterexample :
    normalize {} [] "!AIVDM,3,2,7,A,AAA,0*51,r42,100"
      = ([], [], .exn .KeyError) := by decide

/-- C2 as amended.  For every sentence with total-fragment-count > 1 and
fragment-index strictly between 1 and the total, arriving when no buffer
exists for its `BufferSlot`, the situation is NOT tolerated silently: the
buffer phase of `normalize` (`normBuffer`, the translation of `ais.py` lines
346-361, reached with the sentence's parsed components) hits the un-guarded
`buffers[bufferSlot].append` of line 351 and raises `KeyError`.  The buffers
state is left unchanged, no error condition is signaled (the delivered
conditions are exactly the inherited `csConds`), no result is produced, and
the exception escapes the call. -/
theorem C2_amended_missing_slot_keyerror (cfg : AisConfig) (buffers : Buffers)
    (line : String) (fields : List String) (tagblock : SDict)
    (timestamp : String) (slot : BufferSlot) (pkt : Packet)
    (totNumSentences sentenceNum : Int) (csConds : List ErrCond)
    (h1 : 1 < totNumSentences) (h2 : 1 < sentenceNum)
    (h3 : sentenceNum < totNumSentences)
    (h : slotGet? buffers slot = none) :
    normBuffer cfg buffers line fields tagblock timestamp slot pkt
      totNumSentences sentenceNum csConds = (buffers, csConds, .exn .KeyError) := by
  unfold normBuffer
  rw [if_neg (by omega : ¬ sentenceNum = 1), if_pos h3, h]

/-- Witness for the amended C2 at the components of the concrete sentence
`!AIVDM,3,2,7,A,AAA,0*51,r42,100` (fragment 2 of 3) and the empty buffers
state: the counterexample run, reproduced through the general theorem. -/
theorem C2_amended_witness :
    normBuffer {} [] "!AIVDM,3,2,7,A,AAA,0*51,r42,100\n"
      ["!AIVDM", "3", "2", "7", "A", "AAA", "0*51", "r42", "100\n"] [] "100"
      ⟨none, some "r42", "7", some "A"⟩
      ⟨"AAA", "100", [], "!AIVDM,3,2,7,A,AAA,0*51,r42,100"⟩ 3 2 []
      = ([], [], .exn .KeyError) :=
  C2_amended_missing_slot_keyerror {} [] "!AIVDM,3,2,7,A,AAA,0*51,r42,100\n"
    ["!AIVDM", "3", "2", "7", "A", "AAA", "0*51", "r42", "100\n"] [] "100"
    ⟨none, some "r42", "7", some "A"⟩
    ⟨"AAA", "100", [], "!AIVDM,3,2,7,A,AAA,0*51,r42,100"⟩ 3 2 []
    (by norm_num) (by norm_num) (by norm_num) rfl

end Lpais
